import Mathlib

/-!
Verification of the nutrition aggregation and evaluation engine of the
health-tracker application (src/main.py, src/db.py).

Numeric values are embedded as rationals: the Python code computes with
ints and floats, and every property checked here concerns the exact
threshold arithmetic of the source expressions.
-/

namespace HealthTracker

/-- The nutrition fields of a meal record as consumed by
`analyze_meal_macros` (src/main.py, `Meal` model / `safe_meal` dict). -/
structure MealVals where
  calories : ℚ
  protein : ℚ
  fat : ℚ
  carbohydrates : ℚ
  deriving DecidableEq

/-- A user's daily target profile (src/main.py `get_user_targets`). -/
structure Targets where
  calories : ℚ
  protein : ℚ
  fat : ℚ
  carbs : ℚ
  deriving DecidableEq

/-- One row of the evaluation returned by `analyze_meal_macros`:
a percentage, a color string, and an optional direction glyph. -/
structure MacroEval where
  percent : ℚ
  color : String
  direction : Option String
  deriving DecidableEq

/-- The four-row result dict of `analyze_meal_macros`. -/
structure MacroAnalysis where
  calories : MacroEval
  protein : MacroEval
  fat : MacroEval
  carbs : MacroEval
  deriving DecidableEq

/-- Embedding of `analyze_meal_macros` (src/main.py lines 199-265).
`daily_targets = none` models the falsy `daily_targets` branch.  The
result is `none` exactly when the Python code raises `ZeroDivisionError`,
which happens iff targets are present with `daily_targets['calories'] == 0`
(the division on line 213 is unguarded).  The three meal-side ratios are
set under the single guard `meal['calories'] > 0` in the source; here each
is written with its own copy of that guard. -/
def analyze_meal_macros (meal : MealVals) (daily_targets : Option Targets) :
    Option MacroAnalysis :=
  match daily_targets with
  | none => some
      { calories := ⟨0, "#666666", none⟩
        protein := ⟨0, "#666666", none⟩
        fat := ⟨0, "#666666", none⟩
        carbs := ⟨0, "#666666", none⟩ }
  | some t =>
      if t.calories = 0 then none
      else
        let cal_percent := meal.calories / t.calories * 100
        let target_cals := t.calories
        let target_protein_cals := t.protein * 4
        let target_fat_cals := t.fat * 9
        let target_carb_cals := t.carbs * 4
        let meal_protein_cals := meal.protein * 4
        let meal_fat_cals := meal.fat * 9
        let meal_carb_cals := meal.carbohydrates * 4
        let protein_cal_ratio :=
          if meal.calories > 0 then meal_protein_cals / meal.calories * 100 else 0
        let fat_cal_ratio :=
          if meal.calories > 0 then meal_fat_cals / meal.calories * 100 else 0
        let carb_cal_ratio :=
          if meal.calories > 0 then meal_carb_cals / meal.calories * 100 else 0
        let target_protein_ratio := target_protein_cals / target_cals * 100
        let target_fat_ratio := target_fat_cals / target_cals * 100
        let target_carb_ratio := target_carb_cals / target_cals * 100
        some
        { calories :=
            ⟨cal_percent,
             if cal_percent > 35 then "#ff9999"
             else if cal_percent > 20 then "#666666" else "#99cc99",
             if cal_percent > 35 then some "↑"
             else if 20 ≤ cal_percent ∧ cal_percent ≤ 35 then none else some "↓"⟩
          protein :=
            ⟨protein_cal_ratio,
             if protein_cal_ratio < target_protein_ratio * 0.67 then "#ff9999"
             else if protein_cal_ratio < target_protein_ratio then "#666666" else "#99cc99",
             if protein_cal_ratio < target_protein_ratio * 0.67 then some "↓" else none⟩
          fat :=
            ⟨fat_cal_ratio,
             if fat_cal_ratio > target_fat_ratio * 1.4 then "#ff9999"
             else if fat_cal_ratio > target_fat_ratio then "#666666" else "#99cc99",
             if fat_cal_ratio > target_fat_ratio * 1.4 then some "↑" else none⟩
          carbs :=
            ⟨carb_cal_ratio,
             if carb_cal_ratio > target_carb_ratio * 1.4 then "#ff9999"
             else if carb_cal_ratio > target_carb_ratio then "#666666" else "#99cc99",
             if carb_cal_ratio > target_carb_ratio * 1.4 then some "↑" else none⟩ }

/-- A raw meal row as it comes back from the database: any nutrition field
may be missing or null (src/main.py lines 784-787 and 945-948 read them
with `meal.get(field, 0) or 0`). -/
structure MealRow where
  calories : Option ℚ
  protein : Option ℚ
  fat : Option ℚ
  carbohydrates : Option ℚ
  deriving DecidableEq

/-- A day's summed totals. -/
structure DayTotals where
  calories : ℚ
  protein : ℚ
  fat : ℚ
  carbs : ℚ
  deriving DecidableEq

/-- Embedding of the daily-totals computation (src/main.py lines 784-787,
repeated at 945-948): each field is summed across the meal list with a
missing/null field read as 0. -/
def daily_totals (meals_response : List MealRow) : DayTotals :=
  { calories := (meals_response.map (fun m => m.calories.getD 0)).sum
    protein := (meals_response.map (fun m => m.protein.getD 0)).sum
    fat := (meals_response.map (fun m => m.fat.getD 0)).sum
    carbs := (meals_response.map (fun m => m.carbohydrates.getD 0)).sum }

/-- One row of the `targets` table (src/main.py `save_user_targets`). -/
structure TargetRow where
  user_id : ℕ
  calories : ℚ
  protein : ℚ
  fat : ℚ
  carbs : ℚ
  deriving DecidableEq

/-- Embedding of `save_user_targets` (src/main.py lines 637-662) acting on
the user's `targets` table, modelled as a list of rows.  The select with
`match_dict = {user_id}` is a filter; a nonempty result takes the update
branch (`update_data` patches every row matching `user_id` with the full
field set `data`), an empty result takes the insert branch. -/
def save_user_targets (table : List TargetRow) (uid : ℕ) (targets_dict : Targets) :
    List TargetRow :=
  let existing_targets := table.filter (fun r => decide (r.user_id = uid))
  let data : TargetRow :=
    ⟨uid, targets_dict.calories, targets_dict.protein,
     targets_dict.fat, targets_dict.carbs⟩
  if existing_targets.isEmpty then
    table ++ [data]
  else
    table.map (fun r => if r.user_id = uid then data else r)

/-- Gregorian leap-year rule, as used by the Python `datetime`/`pandas`
calendar the source relies on. -/
def isLeapYear (y : ℕ) : Bool :=
  (y % 4 == 0 && y % 100 != 0) || y % 400 == 0

/-- Days in month `m` (1-12) of year `y`. -/
def monthLength (y m : ℕ) : ℕ :=
  if m = 2 then (if isLeapYear y then 29 else 28)
  else if m = 4 ∨ m = 6 ∨ m = 9 ∨ m = 11 then 30
  else 31

/-- Ordinal day of the year (1-366) of the date `y-m-d`. -/
def dayOfYear (y m d : ℕ) : ℕ :=
  d + ((List.range (m - 1)).map (fun i => monthLength y (i + 1))).sum

/-- Rata-die day number of `y-m-d` in the proleptic Gregorian calendar
(day 1 is 0001-01-01, a Monday). -/
def rataDie (y m d : ℕ) : ℕ :=
  365 * (y - 1) + (y - 1) / 4 - (y - 1) / 100 + (y - 1) / 400 + dayOfYear y m d

/-- ISO weekday of `y-m-d`: 1 = Monday through 7 = Sunday. -/
def isoWeekday (y m d : ℕ) : ℕ :=
  (rataDie y m d - 1) % 7 + 1

/-- Number of ISO weeks (52 or 53) in ISO year `y`: the week containing
December 28 is always the last week of the ISO year. -/
def isoWeeksInYear (y : ℕ) : ℕ :=
  (dayOfYear y 12 28 + 10 - isoWeekday y 12 28) / 7

/-- The ISO-8601 (year, week) pair of the date `y-m-d`, the calendar
computed by `Timestamp.isocalendar` in the pandas call
`daily_df["date"].dt.isocalendar()` (src/main.py line 1006): weeks start
Monday and week 1 is the week containing the year's first Thursday. -/
def isocalendar (y m d : ℕ) : ℕ × ℕ :=
  let w := (dayOfYear y m d + 10 - isoWeekday y m d) / 7
  if w = 0 then (y - 1, isoWeeksInYear (y - 1))
  else if isoWeeksInYear y < w then (y + 1, 1)
  else (y, w)

/-- One row of `daily_df`: a calendar date plus that day's summed totals
(src/main.py lines 950-958). -/
structure DailyRow where
  year : ℕ
  month : ℕ
  day : ℕ
  calories : ℚ
  protein : ℚ
  fat : ℚ
  carbs : ℚ
  deriving DecidableEq

/-- The `year_week` grouping key (src/main.py lines 1006-1007):
`isocalendar().year.astype(str) + "-W" + isocalendar().week.astype(str)` —
note the week number is not zero-padded. -/
def year_week (r : DailyRow) : String :=
  toString (isocalendar r.year r.month r.day).1 ++ "-W" ++
    toString (isocalendar r.year r.month r.day).2

/-- Lexicographic comparison of character lists by code point — the
ordering Python applies when comparing the `year_week` key strings. -/
def charListLt : List Char → List Char → Bool
  | _, [] => false
  | [], _ :: _ => true
  | a :: as, b :: bs =>
    if a.toNat < b.toNat then true
    else if b.toNat < a.toNat then false
    else charListLt as bs

/-- Lexicographic order on strings by code point. -/
def strLt (a b : String) : Bool := charListLt a.data b.data

/-- Insert a key into a sorted list of keys (ascending String order). -/
def insertKey (k : String) : List String → List String
  | [] => [k]
  | x :: xs => if strLt k x then k :: x :: xs else x :: insertKey k xs

/-- Insertion sort on grouping keys: pandas `groupby(...)` followed by
`.sort_values("year_week")` orders the rows of `weekly_df` by the string
key in ascending lexicographic order. -/
def sortKeys : List String → List String
  | [] => []
  | x :: xs => insertKey x (sortKeys xs)

/-- One row of `weekly_df`: a grouping key and the summed weekly totals
(src/main.py lines 1008-1017). -/
structure WeekSummary where
  week : String
  calories : ℚ
  protein : ℚ
  fat : ℚ
  carbs : ℚ
  deriving DecidableEq

/-- The group of daily rows sharing the grouping key `k`. -/
def week_group (rows : List DailyRow) (k : String) : List DailyRow :=
  rows.filter (fun r => year_week r == k)

/-- Embedding of the weekly rollup (src/main.py lines 1006-1017): group
the daily rows by their `year_week` key, sum each macro within a group,
and order the groups by the string key ascending. -/
def weekly_rollup (rows : List DailyRow) : List WeekSummary :=
  (sortKeys ((rows.map year_week).dedup)).map (fun k =>
    { week := k
      calories := ((week_group rows k).map DailyRow.calories).sum
      protein := ((week_group rows k).map DailyRow.protein).sum
      fat := ((week_group rows k).map DailyRow.fat).sum
      carbs := ((week_group rows k).map DailyRow.carbs).sum })

/-- Embedding of the per-week success check (src/main.py lines 1019-1053):
weekly goals are 7 x the daily targets, calories must be within 10 percent
of the weekly goal and each macro within 20 percent of its weekly goal. -/
def week_status (cal_sum protein_sum fat_sum carbs_sum : ℚ)
    (user_targets : Targets) : String :=
  let weekly_goals_calories := 7 * user_targets.calories
  let weekly_goals_protein := 7 * user_targets.protein
  let weekly_goals_fat := 7 * user_targets.fat
  let weekly_goals_carbs := 7 * user_targets.carbs
  let cal_diff := cal_sum - weekly_goals_calories
  let protein_diff := protein_sum - weekly_goals_protein
  let fat_diff := fat_sum - weekly_goals_fat
  let carbs_diff := carbs_sum - weekly_goals_carbs
  let cals_ok := decide (|cal_diff| ≤ 0.10 * weekly_goals_calories)
  let prot_ok := decide (|protein_diff| ≤ 0.20 * weekly_goals_protein)
  let fat_ok := decide (|fat_diff| ≤ 0.20 * weekly_goals_fat)
  let carbs_ok := decide (|carbs_diff| ≤ 0.20 * weekly_goals_carbs)
  if cals_ok && prot_ok && fat_ok && carbs_ok then "Success" else "Not in Range"

/-- Claim C6: for every meal, when the target profile is absent the Macro
Evaluator returns a neutral result for all four macros (percent 0, neutral
color `#666666`, direction `None`) and never raises or divides by zero. -/
theorem absent_targets_neutral (meal : MealVals) :
    analyze_meal_macros meal none =
      some
        { calories := ⟨0, "#666666", none⟩
          protein := ⟨0, "#666666", none⟩
          fat := ⟨0, "#666666", none⟩
          carbs := ⟨0, "#666666", none⟩ } := rfl

/-- Unfolding lemma: the explicit record produced by `analyze_meal_macros`
when targets are present and the calorie target is nonzero. -/
theorem analyze_meal_macros_some_eq (meal : MealVals) (t : Targets)
    (hne : t.calories ≠ 0) :
    analyze_meal_macros meal (some t) = some
      { calories :=
          ⟨meal.calories / t.calories * 100,
           if meal.calories / t.calories * 100 > 35 then "#ff9999"
           else if meal.calories / t.calories * 100 > 20 then "#666666" else "#99cc99",
           if meal.calories / t.calories * 100 > 35 then some "↑"
           else if 20 ≤ meal.calories / t.calories * 100 ∧
                    meal.calories / t.calories * 100 ≤ 35 then none
           else some "↓"⟩
        protein :=
          ⟨(if meal.calories > 0 then meal.protein * 4 / meal.calories * 100 else 0),
           if (if meal.calories > 0 then meal.protein * 4 / meal.calories * 100 else 0) <
                t.protein * 4 / t.calories * 100 * 0.67 then "#ff9999"
           else if (if meal.calories > 0 then meal.protein * 4 / meal.calories * 100 else 0) <
                t.protein * 4 / t.calories * 100 then "#666666"
           else "#99cc99",
           if (if meal.calories > 0 then meal.protein * 4 / meal.calories * 100 else 0) <
                t.protein * 4 / t.calories * 100 * 0.67 then some "↓"
           else none⟩
        fat :=
          ⟨(if meal.calories > 0 then meal.fat * 9 / meal.calories * 100 else 0),
           if (if meal.calories > 0 then meal.fat * 9 / meal.calories * 100 else 0) >
                t.fat * 9 / t.calories * 100 * 1.4 then "#ff9999"
           else if (if meal.calories > 0 then meal.fat * 9 / meal.calories * 100 else 0) >
                t.fat * 9 / t.calories * 100 then "#666666"
           else "#99cc99",
           if (if meal.calories > 0 then meal.fat * 9 / meal.calories * 100 else 0) >
                t.fat * 9 / t.calories * 100 * 1.4 then some "↑"
           else none⟩
        carbs :=
          ⟨(if meal.calories > 0 then meal.carbohydrates * 4 / meal.calories * 100 else 0),
           if (if meal.calories > 0 then meal.carbohydrates * 4 / meal.calories * 100 else 0) >
                t.carbs * 4 / t.calories * 100 * 1.4 then "#ff9999"
           else if (if meal.calories > 0 then meal.carbohydrates * 4 / meal.calories * 100 else 0) >
                t.carbs * 4 / t.calories * 100 then "#666666"
           else "#99cc99",
           if (if meal.calories > 0 then meal.carbohydrates * 4 / meal.calories * 100 else 0) >
                t.carbs * 4 / t.calories * 100 * 1.4 then some "↑"
           else none⟩ } := by
  simp only [analyze_meal_macros, if_neg hne]

/-- Claim C10: with targets present and a strictly positive calorie
target, `analyze_meal_macros` is total (returns a value for all four
macros); the division guard covers only `meal.calories`, so a present
profile with calorie target 0 makes the function raise (modelled as
`none`). -/
theorem analyze_total_domain :
    (∀ (meal : MealVals) (t : Targets), 0 < t.calories →
        (analyze_meal_macros meal (some t)).isSome = true) ∧
    (∀ (meal : MealVals) (t : Targets), t.calories = 0 →
        analyze_meal_macros meal (some t) = none) := by
  constructor
  · intro meal t ht
    rw [analyze_meal_macros_some_eq meal t (ne_of_gt ht)]
    rfl
  · intro meal t ht
    simp only [analyze_meal_macros, if_pos ht]

/-- Witness for C10 at the spec's example targets and a zero target. -/
theorem analyze_total_domain_witness :
    (analyze_meal_macros ⟨250, 10, 20, 20⟩
        (some ⟨2000, 150, 70, 250⟩)).isSome = true ∧
    analyze_meal_macros ⟨250, 10, 20, 20⟩ (some ⟨0, 150, 70, 250⟩) = none :=
  ⟨analyze_total_domain.1 ⟨250, 10, 20, 20⟩ ⟨2000, 150, 70, 250⟩ (by norm_num),
   analyze_total_domain.2 ⟨250, 10, 20, 20⟩ ⟨0, 150, 70, 250⟩ rfl⟩

/-- Claim C7: for every meal with zero calories and present targets with
positive calorie target, the protein, fat, and carb ratios are exactly 0. -/
theorem zero_calorie_meal_ratios (meal : MealVals) (t : Targets)
    (hm : meal.calories = 0) (ht : 0 < t.calories) :
    ∃ a, analyze_meal_macros meal (some t) = some a ∧
      a.protein.percent = 0 ∧ a.fat.percent = 0 ∧ a.carbs.percent = 0 := by
  refine ⟨_, analyze_meal_macros_some_eq meal t (ne_of_gt ht), ?_, ?_, ?_⟩ <;>
    simp [hm]

/-- Witness for C7: a zero-calorie meal against the spec's example targets. -/
theorem zero_calorie_meal_ratios_witness :
    (⟨0, 5, 5, 5⟩ : MealVals).calories = 0 ∧ (0 : ℚ) < 2000 ∧
    ∃ a, analyze_meal_macros ⟨0, 5, 5, 5⟩ (some ⟨2000, 150, 70, 250⟩) = some a ∧
      a.protein.percent = 0 ∧ a.fat.percent = 0 ∧ a.carbs.percent = 0 :=
  ⟨rfl, by norm_num,
   zero_calorie_meal_ratios ⟨0, 5, 5, 5⟩ ⟨2000, 150, 70, 250⟩ rfl (by norm_num)⟩

/-- Claim C1 as stated is false: at `cal_percent` exactly 20 (meal of 400
kcal against a 2000 kcal target) the source colors the calorie row
`#99cc99` (Good), because the color threshold is the strict `> 20`, while
the claim's closed band `[20, 35]` demands the Warning color `#666666`. -/
theorem calorie_row_closed_band_false :
    ¬ (∀ (meal : MealVals) (t : Targets), 0 < t.calories →
        ∃ a, analyze_meal_macros meal (some t) = some a ∧
          a.calories.percent = meal.calories / t.calories * 100 ∧
          (meal.calories / t.calories * 100 > 35 →
            a.calories.color = "#ff9999" ∧ a.calories.direction = some "↑") ∧
          (20 ≤ meal.calories / t.calories * 100 ∧
              meal.calories / t.calories * 100 ≤ 35 →
            a.calories.color = "#666666" ∧ a.calories.direction = none) ∧
          (meal.calories / t.calories * 100 < 20 →
            a.calories.color = "#99cc99" ∧ a.calories.direction = some "↓")) := by
  intro h
  obtain ⟨a, ha, -, -, hmid, -⟩ :=
    h ⟨400, 0, 0, 0⟩ ⟨2000, 0, 0, 0⟩ (by norm_num)
  have hR : analyze_meal_macros ⟨400, 0, 0, 0⟩ (some ⟨2000, 0, 0, 0⟩) =
      some
        { calories := ⟨20, "#99cc99", none⟩
          protein := ⟨0, "#99cc99", none⟩
          fat := ⟨0, "#99cc99", none⟩
          carbs := ⟨0, "#99cc99", none⟩ } := by
    rw [analyze_meal_macros_some_eq _ _ (by norm_num)]
    norm_num
  rw [hR] at ha
  have hae := Option.some.inj ha
  have hcontra := hmid (by norm_num)
  rw [← hae] at hcontra
  exact absurd hcontra.1 (by decide)

/-- Claim C1 (amended): with a positive calorie target, the calorie row of
`analyze_meal_macros` carries `percent = meal.calories / targets.calories
* 100` and is Alert/Up (`#ff9999`, `↑`) when that percent is above 35,
Warning/None (`#666666`, no glyph) when it is in the half-open band
`(20, 35]`, Good with no glyph (`#99cc99`, `None`) when it is exactly 20,
and Good/Down (`#99cc99`, `↓`) when it is below 20. -/
theorem calorie_row_bands (meal : MealVals) (t : Targets)
    (ht : 0 < t.calories) :
    ∃ a, analyze_meal_macros meal (some t) = some a ∧
      a.calories.percent = meal.calories / t.calories * 100 ∧
      (meal.calories / t.calories * 100 > 35 →
        a.calories.color = "#ff9999" ∧ a.calories.direction = some "↑") ∧
      (20 < meal.calories / t.calories * 100 ∧
          meal.calories / t.calories * 100 ≤ 35 →
        a.calories.color = "#666666" ∧ a.calories.direction = none) ∧
      (meal.calories / t.calories * 100 = 20 →
        a.calories.color = "#99cc99" ∧ a.calories.direction = none) ∧
      (meal.calories / t.calories * 100 < 20 →
        a.calories.color = "#99cc99" ∧ a.calories.direction = some "↓") := by
  refine ⟨_, analyze_meal_macros_some_eq meal t (ne_of_gt ht), rfl, ?_, ?_, ?_, ?_⟩
  · intro hgt
    constructor <;> · dsimp only; rw [if_pos hgt]
  · rintro ⟨h20, h35⟩
    constructor
    · dsimp only
      rw [if_neg (by linarith : ¬ meal.calories / t.calories * 100 > 35),
        if_pos h20]
    · dsimp only
      rw [if_neg (by linarith : ¬ meal.calories / t.calories * 100 > 35),
        if_pos ⟨le_of_lt h20, h35⟩]
  · intro heq
    constructor
    · dsimp only
      rw [if_neg (by rw [heq]; norm_num : ¬ meal.calories / t.calories * 100 > 35),
        if_neg (by rw [heq]; norm_num : ¬ meal.calories / t.calories * 100 > 20)]
    · dsimp only
      rw [if_neg (by rw [heq]; norm_num : ¬ meal.calories / t.calories * 100 > 35),
        if_pos (by rw [heq]; norm_num : 20 ≤ meal.calories / t.calories * 100 ∧
          meal.calories / t.calories * 100 ≤ 35)]
  · intro hlt
    constructor
    · dsimp only
      rw [if_neg (by linarith : ¬ meal.calories / t.calories * 100 > 35),
        if_neg (by linarith : ¬ meal.calories / t.calories * 100 > 20)]
    · dsimp only
      rw [if_neg (by linarith : ¬ meal.calories / t.calories * 100 > 35),
        if_neg (by rintro ⟨hc, -⟩; linarith :
          ¬ (20 ≤ meal.calories / t.calories * 100 ∧
             meal.calories / t.calories * 100 ≤ 35))]

/-- Witness for the amended C1 at the spec's example: a 250 kcal meal
against a 2000 kcal target sits at 12.5 percent, Good/Down. -/
theorem calorie_row_bands_witness :
    (0 : ℚ) < 2000 ∧
    ∃ a, analyze_meal_macros ⟨250, 10, 20, 20⟩
        (some ⟨2000, 150, 70, 250⟩) = some a ∧
      a.calories.percent = 250 / 2000 * 100 ∧
      ((250 : ℚ) / 2000 * 100 > 35 →
        a.calories.color = "#ff9999" ∧ a.calories.direction = some "↑") ∧
      (20 < (250 : ℚ) / 2000 * 100 ∧ (250 : ℚ) / 2000 * 100 ≤ 35 →
        a.calories.color = "#666666" ∧ a.calories.direction = none) ∧
      ((250 : ℚ) / 2000 * 100 = 20 →
        a.calories.color = "#99cc99" ∧ a.calories.direction = none) ∧
      ((250 : ℚ) / 2000 * 100 < 20 →
        a.calories.color = "#99cc99" ∧ a.calories.direction = some "↓") :=
  ⟨by norm_num,
   calorie_row_bands ⟨250, 10, 20, 20⟩ ⟨2000, 150, 70, 250⟩ (by norm_num)⟩

/-- Claim C4: for a meal with positive calories and a positive calorie
target, with each macro's meal ratio and target ratio computed as its
calorie share (4 kcal/g protein, 9 kcal/g fat, 4 kcal/g carbohydrate),
the protein row is Alert/Down below 0.67 of the target ratio, Warning/None
below the target ratio, else Good/None; the fat and carb rows are
Alert/Up above 1.4 of the target ratio, Warning/None above the target
ratio, else Good/None (chained else-if reading). -/
theorem nutrient_row_bands (meal : MealVals) (t : Targets)
    (hm : meal.calories > 0) (ht : 0 < t.calories) :
    ∃ a, analyze_meal_macros meal (some t) = some a ∧
      (meal.protein * 4 / meal.calories * 100 <
          0.67 * (t.protein * 4 / t.calories * 100) →
        a.protein.color = "#ff9999" ∧ a.protein.direction = some "↓") ∧
      (¬ meal.protein * 4 / meal.calories * 100 <
          0.67 * (t.protein * 4 / t.calories * 100) →
        meal.protein * 4 / meal.calories * 100 <
          t.protein * 4 / t.calories * 100 →
        a.protein.color = "#666666" ∧ a.protein.direction = none) ∧
      (¬ meal.protein * 4 / meal.calories * 100 <
          0.67 * (t.protein * 4 / t.calories * 100) →
        ¬ meal.protein * 4 / meal.calories * 100 <
          t.protein * 4 / t.calories * 100 →
        a.protein.color = "#99cc99" ∧ a.protein.direction = none) ∧
      (meal.fat * 9 / meal.calories * 100 >
          1.4 * (t.fat * 9 / t.calories * 100) →
        a.fat.color = "#ff9999" ∧ a.fat.direction = some "↑") ∧
      (¬ meal.fat * 9 / meal.calories * 100 >
          1.4 * (t.fat * 9 / t.calories * 100) →
        meal.fat * 9 / meal.calories * 100 > t.fat * 9 / t.calories * 100 →
        a.fat.color = "#666666" ∧ a.fat.direction = none) ∧
      (¬ meal.fat * 9 / meal.calories * 100 >
          1.4 * (t.fat * 9 / t.calories * 100) →
        ¬ meal.fat * 9 / meal.calories * 100 > t.fat * 9 / t.calories * 100 →
        a.fat.color = "#99cc99" ∧ a.fat.direction = none) ∧
      (meal.carbohydrates * 4 / meal.calories * 100 >
          1.4 * (t.carbs * 4 / t.calories * 100) →
        a.carbs.color = "#ff9999" ∧ a.carbs.direction = some "↑") ∧
      (¬ meal.carbohydrates * 4 / meal.calories * 100 >
          1.4 * (t.carbs * 4 / t.calories * 100) →
        meal.carbohydrates * 4 / meal.calories * 100 >
          t.carbs * 4 / t.calories * 100 →
        a.carbs.color = "#666666" ∧ a.carbs.direction = none) ∧
      (¬ meal.carbohydrates * 4 / meal.calories * 100 >
          1.4 * (t.carbs * 4 / t.calories * 100) →
        ¬ meal.carbohydrates * 4 / meal.calories * 100 >
          t.carbs * 4 / t.calories * 100 →
        a.carbs.color = "#99cc99" ∧ a.carbs.direction = none) := by
  refine ⟨_, analyze_meal_macros_some_eq meal t (ne_of_gt ht),
    ?_, ?_, ?_, ?_, ?_, ?_, ?_, ?_, ?_⟩ <;>
    intros <;> constructor <;>
      (dsimp only; simp only [if_pos hm];
       split_ifs <;> first | rfl | (exfalso; linarith))

/-- Witness for C4 at the spec's example: meal `{250, 10, 20, 20}` against
targets `{2000, 150, 70, 250}` (protein share 16 percent, below 0.67 of the
30 percent target share, hence Alert/Down). -/
theorem nutrient_row_bands_witness :
    (250 : ℚ) > 0 ∧ (0 : ℚ) < 2000 ∧
    ∃ a, analyze_meal_macros ⟨250, 10, 20, 20⟩
        (some ⟨2000, 150, 70, 250⟩) = some a ∧
      ((10 : ℚ) * 4 / 250 * 100 < 0.67 * (150 * 4 / 2000 * 100) →
        a.protein.color = "#ff9999" ∧ a.protein.direction = some "↓") ∧
      (¬ (10 : ℚ) * 4 / 250 * 100 < 0.67 * (150 * 4 / 2000 * 100) →
        (10 : ℚ) * 4 / 250 * 100 < 150 * 4 / 2000 * 100 →
        a.protein.color = "#666666" ∧ a.protein.direction = none) ∧
      (¬ (10 : ℚ) * 4 / 250 * 100 < 0.67 * (150 * 4 / 2000 * 100) →
        ¬ (10 : ℚ) * 4 / 250 * 100 < 150 * 4 / 2000 * 100 →
        a.protein.color = "#99cc99" ∧ a.protein.direction = none) ∧
      ((20 : ℚ) * 9 / 250 * 100 > 1.4 * (70 * 9 / 2000 * 100) →
        a.fat.color = "#ff9999" ∧ a.fat.direction = some "↑") ∧
      (¬ (20 : ℚ) * 9 / 250 * 100 > 1.4 * (70 * 9 / 2000 * 100) →
        (20 : ℚ) * 9 / 250 * 100 > 70 * 9 / 2000 * 100 →
        a.fat.color = "#666666" ∧ a.fat.direction = none) ∧
      (¬ (20 : ℚ) * 9 / 250 * 100 > 1.4 * (70 * 9 / 2000 * 100) →
        ¬ (20 : ℚ) * 9 / 250 * 100 > 70 * 9 / 2000 * 100 →
        a.fat.color = "#99cc99" ∧ a.fat.direction = none) ∧
      ((20 : ℚ) * 4 / 250 * 100 > 1.4 * (250 * 4 / 2000 * 100) →
        a.carbs.color = "#ff9999" ∧ a.carbs.direction = some "↑") ∧
      (¬ (20 : ℚ) * 4 / 250 * 100 > 1.4 * (250 * 4 / 2000 * 100) →
        (20 : ℚ) * 4 / 250 * 100 > 250 * 4 / 2000 * 100 →
        a.carbs.color = "#666666" ∧ a.carbs.direction = none) ∧
      (¬ (20 : ℚ) * 4 / 250 * 100 > 1.4 * (250 * 4 / 2000 * 100) →
        ¬ (20 : ℚ) * 4 / 250 * 100 > 250 * 4 / 2000 * 100 →
        a.carbs.color = "#99cc99" ∧ a.carbs.direction = none) :=
  ⟨by norm_num, by norm_num,
   nutrient_row_bands ⟨250, 10, 20, 20⟩ ⟨2000, 150, 70, 250⟩
     (by norm_num) (by norm_num)⟩

/-- Claim C8: daily aggregation yields all-zero totals on the empty list,
is invariant under permutation of the meal list, and is total (it is a
Lean function, defined on every list, with null fields read as 0). -/
theorem daily_totals_spec :
    daily_totals [] = ⟨0, 0, 0, 0⟩ ∧
    ∀ (l1 l2 : List MealRow), l1.Perm l2 →
      daily_totals l1 = daily_totals l2 := by
  refine ⟨rfl, fun l1 l2 h => ?_⟩
  simp only [daily_totals, DayTotals.mk.injEq]
  exact ⟨(h.map _).sum_eq, (h.map _).sum_eq, (h.map _).sum_eq, (h.map _).sum_eq⟩

/-- Witness for C8: swapping two concrete rows (one with null fields)
leaves the totals unchanged. -/
theorem daily_totals_spec_witness :
    (([⟨some 100, some 5, none, some 12⟩, ⟨none, some 7, some 3, none⟩] :
        List MealRow).Perm
      [⟨none, some 7, some 3, none⟩, ⟨some 100, some 5, none, some 12⟩]) ∧
    daily_totals [⟨some 100, some 5, none, some 12⟩, ⟨none, some 7, some 3, none⟩] =
      daily_totals [⟨none, some 7, some 3, none⟩, ⟨some 100, some 5, none, some 12⟩] :=
  ⟨List.Perm.swap _ _ _,
   daily_totals_spec.2 _ _ (List.Perm.swap _ _ _)⟩

/-- Claim C9: upserting the same target profile twice yields the same
stored table state as upserting it once — the first call inserts when no
row exists (or updates the existing row), and the second call updates the
now-existing row with identical values. -/
theorem save_user_targets_idempotent (table : List TargetRow) (uid : ℕ)
    (targets_dict : Targets) :
    save_user_targets (save_user_targets table uid targets_dict) uid targets_dict =
      save_user_targets table uid targets_dict := by
  simp only [save_user_targets]
  by_cases h : (table.filter (fun r => decide (r.user_id = uid))).isEmpty
  · -- first call inserts the row; second call finds it and rewrites it to itself
    rw [if_pos h]
    have hnone : ∀ r ∈ table, r.user_id ≠ uid := by
      intro r hr hcon
      have hmem : r ∈ table.filter (fun r => decide (r.user_id = uid)) :=
        List.mem_filter.mpr ⟨hr, by simp [hcon]⟩
      rw [List.isEmpty_iff.mp h] at hmem
      exact List.not_mem_nil r hmem
    have hfe : (table ++
        [(⟨uid, targets_dict.calories, targets_dict.protein,
           targets_dict.fat, targets_dict.carbs⟩ : TargetRow)]).filter
          (fun r => decide (r.user_id = uid)) =
        [⟨uid, targets_dict.calories, targets_dict.protein,
          targets_dict.fat, targets_dict.carbs⟩] := by
      rw [List.filter_append, List.isEmpty_iff.mp h]
      simp
    rw [hfe, if_neg (by simp), List.map_append]
    have hmt : table.map
        (fun r => if r.user_id = uid then
          (⟨uid, targets_dict.calories, targets_dict.protein,
            targets_dict.fat, targets_dict.carbs⟩ : TargetRow) else r) = table := by
      conv_rhs => rw [← List.map_id table]
      exact List.map_congr_left (fun r hr => by
        simp only [id_eq, if_neg (hnone r hr)])
    rw [hmt]
    simp
  · -- first call updates; the second update writes the same rows back
    rw [if_neg h]
    have hne : table.filter (fun r => decide (r.user_id = uid)) ≠ [] := by
      intro hcon
      rw [hcon] at h
      exact h rfl
    obtain ⟨r, hrf⟩ := List.exists_mem_of_ne_nil _ hne
    obtain ⟨hrt, hpr⟩ := List.mem_filter.mp hrf
    have hru : r.user_id = uid := of_decide_eq_true hpr
    have hDmem : (⟨uid, targets_dict.calories, targets_dict.protein,
        targets_dict.fat, targets_dict.carbs⟩ : TargetRow) ∈
        table.map (fun r => if r.user_id = uid then
          (⟨uid, targets_dict.calories, targets_dict.protein,
            targets_dict.fat, targets_dict.carbs⟩ : TargetRow) else r) :=
      List.mem_map.mpr ⟨r, hrt, by simp [hru]⟩
    have hDf : (⟨uid, targets_dict.calories, targets_dict.protein,
        targets_dict.fat, targets_dict.carbs⟩ : TargetRow) ∈
        (table.map (fun r => if r.user_id = uid then
          (⟨uid, targets_dict.calories, targets_dict.protein,
            targets_dict.fat, targets_dict.carbs⟩ : TargetRow) else r)).filter
          (fun r => decide (r.user_id = uid)) :=
      List.mem_filter.mpr ⟨hDmem, by simp⟩
    rw [if_neg (by
      intro hcon
      rw [List.isEmpty_iff.mp hcon] at hDf
      exact List.not_mem_nil _ hDf)]
    rw [List.map_map]
    apply List.map_congr_left
    intro s hs
    by_cases hsu : s.user_id = uid <;> simp [Function.comp, hsu]

/-- Claim C3: the weekly status is `Success` iff the weekly calorie total
is within 10 percent of 7 x the daily calorie target and protein, fat and
carbs are each within 20 percent of 7 x their daily targets; otherwise it
is the not-in-range status. -/
theorem week_status_success_iff (cal_sum protein_sum fat_sum carbs_sum : ℚ)
    (t : Targets) :
    (week_status cal_sum protein_sum fat_sum carbs_sum t = "Success" ↔
      (|cal_sum - 7 * t.calories| ≤ 0.10 * (7 * t.calories) ∧
       |protein_sum - 7 * t.protein| ≤ 0.20 * (7 * t.protein) ∧
       |fat_sum - 7 * t.fat| ≤ 0.20 * (7 * t.fat) ∧
       |carbs_sum - 7 * t.carbs| ≤ 0.20 * (7 * t.carbs))) ∧
    (week_status cal_sum protein_sum fat_sum carbs_sum t = "Not in Range" ↔
      ¬ (|cal_sum - 7 * t.calories| ≤ 0.10 * (7 * t.calories) ∧
         |protein_sum - 7 * t.protein| ≤ 0.20 * (7 * t.protein) ∧
         |fat_sum - 7 * t.fat| ≤ 0.20 * (7 * t.fat) ∧
         |carbs_sum - 7 * t.carbs| ≤ 0.20 * (7 * t.carbs))) := by
  simp only [week_status, Bool.and_eq_true, decide_eq_true_eq]
  split_ifs with h
  · exact ⟨iff_of_true rfl ⟨h.1.1.1, h.1.1.2, h.1.2, h.2⟩,
      iff_of_false (by decide) (fun hc => hc ⟨h.1.1.1, h.1.1.2, h.1.2, h.2⟩)⟩
  · exact ⟨iff_of_false (by decide)
        (fun hc => h ⟨⟨⟨hc.1, hc.2.1⟩, hc.2.2.1⟩, hc.2.2.2⟩),
      iff_of_true rfl (fun hc => h ⟨⟨⟨hc.1, hc.2.1⟩, hc.2.2.1⟩, hc.2.2.2⟩)⟩

/-- Claim C5: the weekly rollup groups by ISO-8601 calendar week — any two
rows with the same ISO (year, week) pair land in the same bucket; in
particular 2024-12-30 and 2025-01-01 both have ISO week (2025, 1) and roll
up into a single summary whose totals sum both days, across the Gregorian
year boundary. -/
theorem iso_week_grouping :
    (∀ (rows : List DailyRow) (r1 r2 : DailyRow), r1 ∈ rows → r2 ∈ rows →
        isocalendar r1.year r1.month r1.day =
          isocalendar r2.year r2.month r2.day →
        ∃ k, r1 ∈ week_group rows k ∧ r2 ∈ week_group rows k) ∧
    isocalendar 2024 12 30 = (2025, 1) ∧
    isocalendar 2025 1 1 = (2025, 1) ∧
    weekly_rollup [⟨2024, 12, 30, 500, 30, 20, 50⟩,
        ⟨2025, 1, 1, 700, 40, 25, 60⟩] =
      [⟨"2025-W1", 1200, 70, 45, 110⟩] := by
  refine ⟨?_, by decide, by decide, ?_⟩
  · intro rows r1 r2 h1 h2 hiso
    exact ⟨year_week r1,
      List.mem_filter.mpr ⟨h1, by simp⟩,
      List.mem_filter.mpr ⟨h2, by simp [year_week, hiso]⟩⟩
  · have hkeys : sortKeys (([(⟨2024, 12, 30, 500, 30, 20, 50⟩ : DailyRow),
        ⟨2025, 1, 1, 700, 40, 25, 60⟩].map year_week).dedup) = ["2025-W1"] := by
      decide
    have hgrp : week_group [(⟨2024, 12, 30, 500, 30, 20, 50⟩ : DailyRow),
        ⟨2025, 1, 1, 700, 40, 25, 60⟩] "2025-W1" =
        [⟨2024, 12, 30, 500, 30, 20, 50⟩, ⟨2025, 1, 1, 700, 40, 25, 60⟩] := rfl
    simp only [weekly_rollup]
    rw [hkeys]
    simp only [List.map_cons, List.map_nil, hgrp, List.sum_cons, List.sum_nil]
    norm_num

/-- Witness for C5: the two concrete year-boundary rows are members of the
same week bucket. -/
theorem iso_week_grouping_witness :
    ((⟨2024, 12, 30, 500, 30, 20, 50⟩ : DailyRow) ∈
      [(⟨2024, 12, 30, 500, 30, 20, 50⟩ : DailyRow),
       ⟨2025, 1, 1, 700, 40, 25, 60⟩]) ∧
    ((⟨2025, 1, 1, 700, 40, 25, 60⟩ : DailyRow) ∈
      [(⟨2024, 12, 30, 500, 30, 20, 50⟩ : DailyRow),
       ⟨2025, 1, 1, 700, 40, 25, 60⟩]) ∧
    isocalendar 2024 12 30 = isocalendar 2025 1 1 ∧
    ∃ k, (⟨2024, 12, 30, 500, 30, 20, 50⟩ : DailyRow) ∈
        week_group [(⟨2024, 12, 30, 500, 30, 20, 50⟩ : DailyRow),
          ⟨2025, 1, 1, 700, 40, 25, 60⟩] k ∧
      (⟨2025, 1, 1, 700, 40, 25, 60⟩ : DailyRow) ∈
        week_group [(⟨2024, 12, 30, 500, 30, 20, 50⟩ : DailyRow),
          ⟨2025, 1, 1, 700, 40, 25, 60⟩] k :=
  ⟨List.mem_cons_self _ _,
   List.mem_cons_of_mem _ (List.mem_cons_self _ _),
   by decide,
   iso_week_grouping.1 _ _ _
     (List.mem_cons_self _ _)
     (List.mem_cons_of_mem _ (List.mem_cons_self _ _))
     (by decide)⟩

/-- Claim C2 fails on the code: the rollup emits one summary per distinct
`year_week` key, but `.sort_values("year_week")` orders the non-zero-padded
string keys lexicographically, so the summary for ISO week 10 of 2025
(`"2025-W10"`) precedes the one for ISO week 2 (`"2025-W2"`), violating
chronological ascending order. -/
theorem weekly_rollup_lexicographic_order :
    (weekly_rollup [⟨2025, 1, 6, 2000, 150, 70, 250⟩,
        ⟨2025, 3, 3, 1800, 140, 60, 240⟩]).map WeekSummary.week =
      ["2025-W10", "2025-W2"] ∧
    isocalendar 2025 1 6 = (2025, 2) ∧
    isocalendar 2025 3 3 = (2025, 10) :=
  ⟨by decide, by decide, by decide⟩

end HealthTracker
